import Mathlib

/-!
Verification of the `PyServer` heartbeat RPC server (src/server.py).

The server is embedded shallowly:

* A heartbeat cycle's input is its head frame plus the list of trailing
  payload frames (`zmq.RCVMORE` is true exactly while trailing frames remain).
* Socket traffic is recorded as a trace of `Event`s (`recv`/`send` of a
  text frame), so ordering properties ("sent after processing", "trailing
  frames never read") are statements about the trace.
* Python exceptions that escape a call are `PyError` values in an `Except`;
  exceptions caught inside `_beat`'s `try/except` never appear there, they
  are converted to the `error` half of the response, exactly as in the code.
* RPC results are modelled as their string rendering (the only exposed
  method, `echo`, returns its string argument unchanged, so `str(result)`
  is the identity here).
* The heartbeat interval is a rational number; the bounds check in `run`
  compares it against the `_BEAT_BOUNDS` endpoints with the same strict
  comparisons as the source.
-/

deriving instance DecidableEq for Except

namespace PyServer

/-- A Python exception escaping a call, tagged with its class. -/
inductive PyError where
  | valueError (msg : String)
  | runtimeError (msg : String)
deriving DecidableEq, Repr

/-- One socket operation: receiving or sending a single text frame. -/
inductive Event where
  | recv (s : String)
  | send (s : String)
deriving DecidableEq, Repr

/-- The frames sent in a trace, in order. -/
def sentFrames (tr : List Event) : List String :=
  tr.filterMap (fun e => match e with | .send s => some s | .recv _ => none)

/-- `_PAYLOAD_STR` (src/server.py line 14): separator between the base
message and the result/error payload of a response. -/
def PAYLOAD_STR : String := ":::"

/-- `MORE_LIMIT` (src/server.py line 124): ceiling on trailing payload
frames collected in one cycle. -/
def MORE_LIMIT : Nat := 10

/-- Python's `str.startswith`: the first `len(p)` characters of `s` equal
`p`.  (Lean's own `String.startsWith` is not kernel-reducible, so the
embedding spells out the same predicate on the character lists.) -/
def startswith (s p : String) : Bool := s.data.take p.data.length == p.data

/-- `echo` (src/server.py lines 211-225): returns its argument unchanged. -/
def echo (msg : String) : String := msg

/-- `_respond` (src/server.py lines 174-209): builds the response string.
If either `error` or `result` is present the separator is appended, then
`"error: " ++ error` when `error` is present, else the result rendering. -/
def respond (msg : String) (result : Option String) (error : Option String) : String :=
  if error.isSome || result.isSome then
    let m := msg ++ PAYLOAD_STR
    match error with
    | some e => m ++ ("error: " ++ e)
    | none =>
      match result with
      | some r => m ++ r
      | none => m
  else msg

/-- The payload-collection loop of `_beat` (src/server.py lines 139-153),
entered when `RCVMORE` is set.  Input is the list of trailing frames still
pending; `mc` is `more_count` so far.  Each iteration receives one frame,
increments `more_count`, appends the frame, refreshes `more`, and raises
`RuntimeError` when `more_count` exceeds `MORE_LIMIT`.  Returns the frames
actually received (the trace) together with either the collected packet or
the `RuntimeError`. -/
def collectLoop : List String → Nat → List String × Except PyError (List String)
  | [], _ => ([], .ok [])
  | f :: rest, mc =>
    let mc' := mc + 1
    if mc' > MORE_LIMIT then
      ([f], .error (.runtimeError
        ("Count = " ++ toString mc' ++ " > " ++ toString MORE_LIMIT ++ "! breaking")))
    else
      let r := collectLoop rest mc'
      (f :: r.1, r.2.map (fun p => f :: p))

/-- The `try/except` dispatch block of `_beat` (src/server.py lines 157-168).
`resolve` is the `getattr` attribute table of the server object: a name
maps to a callable that either returns a value or raises (message given).
All exceptions in the block are caught and rendered as
`"Malformed packet: '<str(err)>'"`; a failed `getattr` raises
`AttributeError` with Python's standard message.  Returns `(result, error)`. -/
def dispatch (resolve : String → Option (String → Except String String))
    (packet : List String) : Option String × Option String :=
  match packet with
  | [func, arg] =>
    if startswith func "_" then
      (none, some "Malformed packet: 'Cannot call internal methods!'")
    else
      match resolve func with
      | none =>
        (none, some ("Malformed packet: ''PyServer' object has no attribute '"
          ++ func ++ "''"))
      | some f =>
        match f arg with
        | .ok r => (some r, none)
        | .error e => (none, some ("Malformed packet: '" ++ e ++ "'"))
  | _ => (none, some "Malformed packet: 'Packet was not length 2!'")

/-- `_beat` (src/server.py lines 110-172): one heartbeat cycle.  Receives the
head frame and increments the counter; a head starting with `"STOP"` runs
`_stop` (sets the stop flag and responds `"STOPPED"`) without touching the
trailing frames; otherwise, when `RCVMORE` is set, collects the payload
(fatal `RuntimeError` past the ceiling), dispatches it, and finally sends
the one response.  Returns the event trace and, unless a fatal error was
raised, the stop flag and the new counter. -/
def beat (resolve : String → Option (String → Except String String))
    (count : Nat) (head : String) (trailing : List String) :
    List Event × Except PyError (Bool × Nat) :=
  let c := count + 1
  if startswith head "STOP" then
    ([.recv head, .send (respond "STOPPED" none none)], .ok (true, c))
  else
    match trailing with
    | [] => ([.recv head, .send (respond "beat" none none)], .ok (false, c))
    | _ :: _ =>
      let r := collectLoop trailing 0
      match r.2 with
      | .error e => (.recv head :: r.1.map Event.recv, .error e)
      | .ok packet =>
        let d := dispatch resolve packet
        (.recv head :: (r.1.map Event.recv ++ [.send (respond "beat" d.1 d.2)]),
          .ok (false, c))

/-- The `while (not self._stop_flag)` loop of `run` (src/server.py lines
87-89), driven by the finite stream of incoming messages (head frame plus
trailing frames each).  Returns the event trace, and either the fatal error
or the list of counter values after each processed cycle together with the
final stop flag.  An exhausted stream (the server would block on `recv`)
ends the model run with the flag still clear. -/
def runLoop (resolve : String → Option (String → Except String String)) :
    List (String × List String) → Nat →
    List Event × Except PyError (List Nat × Bool)
  | [], _ => ([], .ok ([], false))
  | (h, tr) :: rest, c =>
    let b := beat resolve c h tr
    match b.2 with
    | .error e => (b.1, .error e)
    | .ok (stopped, c') =>
      if stopped then (b.1, .ok ([c'], true))
      else
        let r := runLoop resolve rest c'
        (b.1 ++ r.1, r.2.map (fun p => (c' :: p.1, p.2)))

/-- `_BEAT_BOUNDS` (src/server.py line 13), as exact rationals. -/
def BEAT_BOUNDS_LO : Rat := 1/1000

/-- Upper heartbeat-interval bound, seconds. -/
def BEAT_BOUNDS_HI : Rat := 1

/-- The `ValueError` message of `run`'s bounds check (src/server.py lines
80-82); the numeric rendering of the offending value uses `toString` in
place of Python's float formatting. -/
def boundsErrMsg (beatInterval : Rat) : String :=
  "`beat` = '" ++ toString beatInterval ++ "' out of bounds: [0.001, 1.0]"

/-- `run` (src/server.py lines 70-97): validates the interval — raising
`ValueError` before any socket activity when `beat > 1.0` or
`beat < 0.001` — then starts the heartbeat loop with the counter at 0. -/
def run (resolve : String → Option (String → Except String String))
    (beatInterval : Rat) (msgs : List (String × List String)) :
    List Event × Except PyError (List Nat × Bool) :=
  if beatInterval > BEAT_BOUNDS_HI ∨ beatInterval < BEAT_BOUNDS_LO then
    ([], .error (.valueError (boundsErrMsg beatInterval)))
  else
    runLoop resolve msgs 0

/-- The `getattr` surface of a `PyServer` instance, restricted to its public
(per-object or class) attributes: `echo` returns its argument; `addr` is a
string, so calling it raises `TypeError`; `run` called with a string
argument raises `TypeError` inside its bounds comparison.  All other public
names raise `AttributeError` at lookup (modelled as `none`). -/
def pyServerResolve : String → Option (String → Except String String)
  | "echo" => some (fun m => .ok (echo m))
  | "addr" => some (fun _ => .error "'str' object is not callable")
  | "run" => some (fun _ => .error "'>' not supported between instances of 'str' and 'float'")
  | _ => none

/-! ### Basic lemmas about the collector, dispatcher and loop -/

/-- When the trailing frames do not exceed the ceiling, the collection loop
consumes exactly those frames and returns them as the packet. -/
theorem collectLoop_ok (l : List String) (mc : Nat) (h : mc + l.length ≤ MORE_LIMIT) :
    collectLoop l mc = (l, .ok l) := by
  induction l generalizing mc with
  | nil => rfl
  | cons f rest ih =>
    have hM : MORE_LIMIT = 10 := rfl
    have hlen : mc + 1 + rest.length ≤ MORE_LIMIT := by
      simp only [List.length_cons, hM] at h ⊢; omega
    have hle : ¬ mc + 1 > MORE_LIMIT := by
      simp only [List.length_cons, hM] at h ⊢; omega
    simp only [collectLoop, if_neg hle, ih (mc + 1) hlen]
    rfl

/-- When the trailing frames exceed the ceiling, the collection loop raises
the `RuntimeError` of src/server.py lines 149-153. -/
theorem collectLoop_err (l : List String) (mc : Nat) (h1 : mc ≤ MORE_LIMIT)
    (h2 : MORE_LIMIT + 1 ≤ mc + l.length) :
    (collectLoop l mc).2 = .error (.runtimeError "Count = 11 > 10! breaking") := by
  have hM : MORE_LIMIT = 10 := rfl
  induction l generalizing mc with
  | nil => rw [hM] at h1 h2; simp only [List.length_nil] at h2; omega
  | cons f rest ih =>
    by_cases hgt : mc + 1 > MORE_LIMIT
    · have hmc : mc = 10 := by rw [hM] at h1 hgt; omega
      subst hmc
      simp only [collectLoop, if_pos hgt]
      rfl
    · have h1' : mc + 1 ≤ MORE_LIMIT := by omega
      have h2' : MORE_LIMIT + 1 ≤ mc + 1 + rest.length := by
        simp only [List.length_cons] at h2; omega
      simp only [collectLoop, if_neg hgt]
      rw [ih (mc + 1) h1' h2']
      rfl

/-- A trace made only of received frames contains no sent frame. -/
theorem sentFrames_map_recv (l : List String) :
    sentFrames (l.map Event.recv) = [] := by
  simp [sentFrames, List.filterMap_map]

/-- A packet whose frame count is not 2 is rejected by the dispatcher with
the malformed-packet error, whatever the method table holds. -/
theorem dispatch_ne_two (resolve : String → Option (String → Except String String))
    (packet : List String) (h : packet.length ≠ 2) :
    dispatch resolve packet =
      (none, some "Malformed packet: 'Packet was not length 2!'") := by
  match packet with
  | [] => rfl
  | [a] => rfl
  | [a, b] => simp at h
  | a :: b :: c :: l => rfl

/-- Whenever a cycle completes without a fatal error, the returned counter
is the incoming counter plus one. -/
theorem beat_count (resolve : String → Option (String → Except String String))
    (c : Nat) (hd : String) (tr : List String) (st : Bool) (c' : Nat)
    (h : (beat resolve c hd tr).2 = .ok (st, c')) : c' = c + 1 := by
  unfold beat at h
  by_cases hstop : startswith hd "STOP"
  · simp only [if_pos hstop] at h
    simp at h
    omega
  · simp only [if_neg hstop] at h
    cases tr with
    | nil =>
      simp at h
      omega
    | cons a l =>
      simp only at h
      rcases hcl : (collectLoop (a :: l) 0).2 with e | packet
      · rw [hcl] at h
        simp at h
      · rw [hcl] at h
        simp at h
        omega

/-- The list of counter values produced by the heartbeat loop starting at
`c` is `c+1, c+2, ...`: each processed cycle, the terminating one included,
increments the counter by exactly one. -/
theorem runLoop_counts (resolve : String → Option (String → Except String String))
    (msgs : List (String × List String)) (c : Nat)
    (counts : List Nat) (st : Bool)
    (h : (runLoop resolve msgs c).2 = .ok (counts, st)) :
    ∀ i (hi : i < counts.length), counts.get ⟨i, hi⟩ = c + i + 1 := by
  induction msgs generalizing c counts st with
  | nil =>
    simp only [runLoop] at h
    simp at h
    obtain ⟨h1, -⟩ := h
    subst h1
    intro i hi
    simp at hi
  | cons m rest ih =>
    obtain ⟨hd, tr⟩ := m
    simp only [runLoop] at h
    rcases hb : (beat resolve c hd tr).2 with e | p
    · rw [hb] at h
      simp at h
    · obtain ⟨stopped, c'⟩ := p
      have hc' : c' = c + 1 := beat_count resolve c hd tr stopped c' hb
      rw [hb] at h
      cases stopped with
      | true =>
        simp at h
        obtain ⟨h1, -⟩ := h
        subst h1
        intro i hi
        simp only [List.length_singleton] at hi
        interval_cases i
        simpa using hc'
      | false =>
        dsimp only at h
        rcases hr : (runLoop resolve rest c').2 with e | q
        · rw [hr] at h
          simp [Except.map] at h
        · obtain ⟨cs, st'⟩ := q
          rw [hr] at h
          simp [Except.map] at h
          obtain ⟨h1, -⟩ := h
          subst h1
          intro i hi
          cases i with
          | zero => simpa using hc'
          | succ j =>
            have hj : j < cs.length := by
              simpa [List.length_cons, Nat.succ_lt_succ_iff] using hi
            have := ih c' cs st' hr j hj
            simp only [List.get_cons_succ]
            rw [this, hc']
            omega

/-! ### The claims -/

/-- C10: the response encoder produces exactly one of three shapes: the bare
base message when both result and error are absent; base message, separator,
`"error: "` and the error text whenever an error is present — even when a
result is also present, in which case the error takes precedence and the
result is silently dropped; and base message, separator and the result
rendering when only a result is present. -/
theorem respond_encoding_shapes (msg r e : String) :
    respond msg none none = msg ∧
    respond msg (some r) (some e) = msg ++ PAYLOAD_STR ++ "error: " ++ e ∧
    respond msg none (some e) = msg ++ PAYLOAD_STR ++ "error: " ++ e ∧
    respond msg (some r) none = msg ++ PAYLOAD_STR ++ r := by
  refine ⟨rfl, ?_, ?_, ?_⟩ <;>
    simp [respond, String.append_assoc]

/-- C2: a head frame beginning with the stop keyword makes the cycle send
exactly the response `"STOPPED"` (bare: no separator, no result or error
suffix), read none of the trailing frames of that message, still increment
the beat counter, and the loop executes no further cycles afterwards,
whatever the rest of the incoming stream holds. -/
theorem beat_stop_directive (resolve : String → Option (String → Except String String))
    (c : Nat) (head : String) (trailing : List String)
    (rest : List (String × List String))
    (hstop : startswith head "STOP" = true) :
    beat resolve c head trailing =
      ([.recv head, .send "STOPPED"], .ok (true, c + 1)) ∧
    runLoop resolve ((head, trailing) :: rest) c =
      ([.recv head, .send "STOPPED"], .ok ([c + 1], true)) := by
  have hb : beat resolve c head trailing =
      ([.recv head, .send "STOPPED"], .ok (true, c + 1)) := by
    simp [beat, hstop, respond]
  refine ⟨hb, ?_⟩
  simp [runLoop, hb]

/-- Concrete instance of the stop directive: head `"STOPX"` with two
trailing frames pending stops the loop with the bare `"STOPPED"` response. -/
theorem beat_stop_directive_witness :
    beat pyServerResolve 0 "STOPX" ["junk1", "junk2"] =
      ([.recv "STOPX", .send "STOPPED"], .ok (true, 0 + 1)) ∧
    runLoop pyServerResolve [("STOPX", ["junk1", "junk2"])] 0 =
      ([.recv "STOPX", .send "STOPPED"], .ok ([0 + 1], true)) :=
  beat_stop_directive pyServerResolve 0 "STOPX" ["junk1", "junk2"] [] (by decide)

/-- C3: `run` fails with its `ValueError` before any frame is sent or
received (the trace is empty) for every interval outside the closed range
from 0.001 to 1.0, and for every interval inside it — the endpoints
included — no configuration error is raised and the heartbeat loop is
entered with the counter at zero. -/
theorem run_interval_validation (resolve : String → Option (String → Except String String))
    (i : Rat) (msgs : List (String × List String)) :
    (i > BEAT_BOUNDS_HI ∨ i < BEAT_BOUNDS_LO →
      run resolve i msgs = ([], .error (.valueError (boundsErrMsg i)))) ∧
    (BEAT_BOUNDS_LO ≤ i → i ≤ BEAT_BOUNDS_HI →
      run resolve i msgs = runLoop resolve msgs 0) := by
  constructor
  · intro h
    simp [run, h]
  · intro h1 h2
    have hn : ¬ (i > BEAT_BOUNDS_HI ∨ i < BEAT_BOUNDS_LO) := by
      push_neg
      exact ⟨h2, h1⟩
    simp [run, hn]

/-- Concrete instances of the interval check: both endpoints enter the
loop, and the out-of-range value 2 fails with the `ValueError`. -/
theorem run_interval_validation_witness :
    run pyServerResolve (1/1000) [] = runLoop pyServerResolve [] 0 ∧
    run pyServerResolve 1 [] = runLoop pyServerResolve [] 0 ∧
    run pyServerResolve 2 [] = ([], .error (.valueError (boundsErrMsg 2))) :=
  ⟨(run_interval_validation pyServerResolve (1/1000) []).2
      (by norm_num [BEAT_BOUNDS_LO]) (by norm_num [BEAT_BOUNDS_LO, BEAT_BOUNDS_HI]),
   (run_interval_validation pyServerResolve 1 []).2
      (by norm_num [BEAT_BOUNDS_LO, BEAT_BOUNDS_HI]) (by norm_num [BEAT_BOUNDS_HI]),
   (run_interval_validation pyServerResolve 2 []).1
      (Or.inl (by norm_num [BEAT_BOUNDS_HI]))⟩

/-- A cycle whose head is not a stop directive and whose trailing frames
stay within the ceiling receives all of them, dispatches the collected
packet and sends the one encoded response. -/
theorem beat_dispatch (resolve : String → Option (String → Except String String))
    (c : Nat) (head : String) (trailing : List String)
    (hstop : startswith head "STOP" = false)
    (h1 : 1 ≤ trailing.length) (h10 : trailing.length ≤ MORE_LIMIT) :
    beat resolve c head trailing =
      (Event.recv head :: (trailing.map Event.recv ++
        [Event.send (respond "beat" (dispatch resolve trailing).1
          (dispatch resolve trailing).2)]),
       .ok (false, c + 1)) := by
  cases trailing with
  | nil => simp at h1
  | cons a l =>
    have hcl : collectLoop (a :: l) 0 = (a :: l, .ok (a :: l)) :=
      collectLoop_ok _ _ (by simpa using h10)
    simp [beat, hstop, hcl]

/-- A cycle that returns normally with the stop flag clear lets the loop
carry on with the remaining stream at the incremented counter. -/
theorem runLoop_continue (resolve : String → Option (String → Except String String))
    (hd : String) (tr : List String) (rest : List (String × List String)) (c : Nat)
    (hb : (beat resolve c hd tr).2 = .ok (false, c + 1)) :
    (runLoop resolve ((hd, tr) :: rest) c).2 =
      ((runLoop resolve rest (c + 1)).2).map (fun p => ((c + 1) :: p.1, p.2)) := by
  simp only [runLoop]
  rw [hb]
  rfl

/-- C1: for a heartbeat cycle whose collected payload is exactly the two
frames `[func, arg]`, where `func` does not begin with the internal marker
and resolves to a method returning `ret` normally, the response sent that
cycle is exactly `"beat"`, the separator `":::"`, and the rendering of
`ret`. -/
theorem beat_call_response (resolve : String → Option (String → Except String String))
    (c : Nat) (head func arg ret : String) (f : String → Except String String)
    (hstop : startswith head "STOP" = false)
    (hmark : startswith func "_" = false)
    (hres : resolve func = some f)
    (hcall : f arg = .ok ret) :
    beat resolve c head [func, arg] =
      ([.recv head, .recv func, .recv arg,
        .send ("beat" ++ PAYLOAD_STR ++ ret)], .ok (false, c + 1)) := by
  have hb := beat_dispatch resolve c head [func, arg] hstop (by simp)
    (by simp [MORE_LIMIT])
  rw [hb]
  simp [dispatch, hmark, hres, hcall, respond, PAYLOAD_STR, String.append_assoc]

/-- Concrete instance of C1: the spec's own example, payload
`["echo", "hello"]`, yields exactly the response `"beat:::hello"`. -/
theorem beat_call_response_witness :
    beat pyServerResolve 0 "beat" ["echo", "hello"] =
      ([.recv "beat", .recv "echo", .recv "hello",
        .send ("beat" ++ PAYLOAD_STR ++ "hello")], .ok (false, 0 + 1)) :=
  beat_call_response pyServerResolve 0 "beat" "echo" "hello" "hello"
    (fun m => .ok (echo m)) (by decide) (by decide) rfl rfl

/-- C5: a collected payload whose frame count is not 2 invokes no method
(the conclusion is the same for every method table), the response is
`"beat"`, the separator and the malformed-packet error message, and the
loop remains running: the cycle returns normally with the stop flag clear
and the loop proceeds to the rest of the stream. -/
theorem beat_malformed_packet (resolve : String → Option (String → Except String String))
    (c : Nat) (head : String) (trailing : List String)
    (rest : List (String × List String))
    (hstop : startswith head "STOP" = false)
    (h1 : 1 ≤ trailing.length) (h10 : trailing.length ≤ MORE_LIMIT)
    (hne : trailing.length ≠ 2) :
    beat resolve c head trailing =
      (Event.recv head :: (trailing.map Event.recv ++
        [Event.send ("beat" ++ PAYLOAD_STR ++
          "error: Malformed packet: 'Packet was not length 2!'")]),
       .ok (false, c + 1)) ∧
    (runLoop resolve ((head, trailing) :: rest) c).2 =
      ((runLoop resolve rest (c + 1)).2).map (fun p => ((c + 1) :: p.1, p.2)) := by
  have hb := beat_dispatch resolve c head trailing hstop h1 h10
  rw [dispatch_ne_two resolve trailing hne] at hb
  refine ⟨?_, runLoop_continue resolve head trailing rest c (by rw [hb])⟩
  rw [hb]
  rfl

/-- Concrete instance of C5: a one-frame payload draws the
malformed-packet error response and the loop goes on. -/
theorem beat_malformed_packet_witness :
    beat pyServerResolve 0 "x" ["lonely"] =
      (Event.recv "x" :: (["lonely"].map Event.recv ++
        [Event.send ("beat" ++ PAYLOAD_STR ++
          "error: Malformed packet: 'Packet was not length 2!'")]),
       .ok (false, 0 + 1)) ∧
    (runLoop pyServerResolve [("x", ["lonely"])] 0).2 =
      ((runLoop pyServerResolve [] (0 + 1)).2).map
        (fun p => ((0 + 1) :: p.1, p.2)) :=
  beat_malformed_packet pyServerResolve 0 "x" ["lonely"] [] (by decide)
    (by decide) (by decide) (by decide)

/-- C6: for a two-frame payload whose function name begins with the
internal marker, the named attribute is never resolved or invoked — the
conclusion holds for every method table — the response carries the
`"Cannot call internal methods!"` error (wrapped, as the code does, in the
`"Malformed packet:"` rendering after the `"error: "` marker), and the
loop remains running. -/
theorem beat_internal_method (resolve : String → Option (String → Except String String))
    (c : Nat) (head func arg : String) (rest : List (String × List String))
    (hstop : startswith head "STOP" = false)
    (hmark : startswith func "_" = true) :
    beat resolve c head [func, arg] =
      ([.recv head, .recv func, .recv arg,
        .send ("beat" ++ PAYLOAD_STR ++
          "error: Malformed packet: 'Cannot call internal methods!'")],
       .ok (false, c + 1)) ∧
    (runLoop resolve ((head, [func, arg]) :: rest) c).2 =
      ((runLoop resolve rest (c + 1)).2).map (fun p => ((c + 1) :: p.1, p.2)) := by
  have hb := beat_dispatch resolve c head [func, arg] hstop (by simp)
    (by simp [MORE_LIMIT])
  have hdp : dispatch resolve [func, arg] =
      (none, some "Malformed packet: 'Cannot call internal methods!'") := by
    simp [dispatch, hmark]
  rw [hdp] at hb
  refine ⟨?_, runLoop_continue resolve head [func, arg] rest c (by rw [hb])⟩
  rw [hb]
  rfl

/-- Concrete instance of C6: calling `"_stop"` remotely is rejected even
though the attribute exists on the object. -/
theorem beat_internal_method_witness :
    beat pyServerResolve 0 "x" ["_stop", "y"] =
      ([.recv "x", .recv "_stop", .recv "y",
        .send ("beat" ++ PAYLOAD_STR ++
          "error: Malformed packet: 'Cannot call internal methods!'")],
       .ok (false, 0 + 1)) ∧
    (runLoop pyServerResolve [("x", ["_stop", "y"])] 0).2 =
      ((runLoop pyServerResolve [] (0 + 1)).2).map
        (fun p => ((0 + 1) :: p.1, p.2)) :=
  beat_internal_method pyServerResolve 0 "x" "_stop" "y" [] (by decide) (by decide)

/-- C7: for a two-frame payload whose function name carries no internal
marker and resolves to no attribute of the server object, the
`AttributeError` is caught and converted into the error half of that
cycle's response — the cycle still returns normally, nothing is propagated
raw — and the loop continues with the next cycle. -/
theorem beat_unresolved_method (resolve : String → Option (String → Except String String))
    (c : Nat) (head func arg : String) (rest : List (String × List String))
    (hstop : startswith head "STOP" = false)
    (hmark : startswith func "_" = false)
    (hres : resolve func = none) :
    beat resolve c head [func, arg] =
      ([.recv head, .recv func, .recv arg,
        .send ("beat" ++ PAYLOAD_STR ++
          ("error: Malformed packet: ''PyServer' object has no attribute '"
            ++ func ++ "''"))],
       .ok (false, c + 1)) ∧
    (runLoop resolve ((head, [func, arg]) :: rest) c).2 =
      ((runLoop resolve rest (c + 1)).2).map (fun p => ((c + 1) :: p.1, p.2)) := by
  have hb := beat_dispatch resolve c head [func, arg] hstop (by simp)
    (by simp [MORE_LIMIT])
  have hdp : dispatch resolve [func, arg] =
      (none, some ("Malformed packet: ''PyServer' object has no attribute '"
        ++ func ++ "''")) := by
    simp [dispatch, hmark, hres]
  rw [hdp] at hb
  refine ⟨?_, runLoop_continue resolve head [func, arg] rest c (by rw [hb])⟩
  rw [hb]
  simp [respond, PAYLOAD_STR, String.append_assoc]
  rw [← String.append_assoc "error: "
    "Malformed packet: ''PyServer' object has no attribute '" (func ++ "''")]
  rfl

/-- Concrete instance of C7: the name `"nosuch"` resolves to nothing and
the failure is turned into that cycle's error response. -/
theorem beat_unresolved_method_witness :
    beat pyServerResolve 0 "x" ["nosuch", "y"] =
      ([.recv "x", .recv "nosuch", .recv "y",
        .send ("beat" ++ PAYLOAD_STR ++
          ("error: Malformed packet: ''PyServer' object has no attribute '"
            ++ "nosuch" ++ "''"))],
       .ok (false, 0 + 1)) ∧
    (runLoop pyServerResolve [("x", ["nosuch", "y"])] 0).2 =
      ((runLoop pyServerResolve [] (0 + 1)).2).map
        (fun p => ((0 + 1) :: p.1, p.2)) :=
  beat_unresolved_method pyServerResolve 0 "x" "nosuch" "y" [] (by decide)
    (by decide) rfl

/-- C4: a message with more trailing payload frames than the ceiling makes
collection raise the fatal `RuntimeError`: the cycle does not complete
normally, no response frame is sent for it, and the loop terminates with
that error; with the ceiling respected, collection completes, the cycle
returns normally, and (when any payload is present) the cycle proceeds to
dispatch and sends the dispatch-encoded response. -/
theorem beat_payload_ceiling (resolve : String → Option (String → Except String String))
    (c : Nat) (head : String) (trailing : List String)
    (rest : List (String × List String))
    (hstop : startswith head "STOP" = false) :
    (MORE_LIMIT + 1 ≤ trailing.length →
      (beat resolve c head trailing).2 =
        .error (.runtimeError "Count = 11 > 10! breaking") ∧
      sentFrames (beat resolve c head trailing).1 = [] ∧
      (runLoop resolve ((head, trailing) :: rest) c).2 =
        .error (.runtimeError "Count = 11 > 10! breaking")) ∧
    (trailing.length ≤ MORE_LIMIT →
      (beat resolve c head trailing).2 = .ok (false, c + 1) ∧
      (1 ≤ trailing.length →
        beat resolve c head trailing =
          (Event.recv head :: (trailing.map Event.recv ++
            [Event.send (respond "beat" (dispatch resolve trailing).1
              (dispatch resolve trailing).2)]),
           .ok (false, c + 1)))) := by
  constructor
  · intro h11
    cases trailing with
    | nil => simp [MORE_LIMIT] at h11
    | cons a l =>
      have hcl : (collectLoop (a :: l) 0).2 =
          .error (.runtimeError "Count = 11 > 10! breaking") :=
        collectLoop_err _ _ (by simp [MORE_LIMIT]) (by simpa using h11)
      have hb : beat resolve c head (a :: l) =
          (Event.recv head :: ((collectLoop (a :: l) 0).1).map Event.recv,
           .error (.runtimeError "Count = 11 > 10! breaking")) := by
        simp [beat, hstop, hcl]
      refine ⟨by rw [hb], ?_, ?_⟩
      · rw [hb]
        simp [sentFrames, List.filterMap_cons, List.filterMap_map]
      · simp only [runLoop]
        rw [hb]
  · intro h10
    constructor
    · cases trailing with
      | nil => simp [beat, hstop]
      | cons a l =>
        rw [beat_dispatch resolve c head (a :: l) hstop (by simp) h10]
    · intro h1
      exact beat_dispatch resolve c head trailing hstop h1 h10

/-- Concrete instances of C4: eleven trailing frames abort the cycle with
the fatal error; two trailing frames collect and the cycle completes. -/
theorem beat_payload_ceiling_witness :
    (beat pyServerResolve 0 "x"
      ["1", "2", "3", "4", "5", "6", "7", "8", "9", "10", "11"]).2 =
      .error (.runtimeError "Count = 11 > 10! breaking") ∧
    (beat pyServerResolve 0 "x" ["echo", "hi"]).2 = .ok (false, 0 + 1) :=
  ⟨((beat_payload_ceiling pyServerResolve 0 "x"
      ["1", "2", "3", "4", "5", "6", "7", "8", "9", "10", "11"] [] (by decide)).1
      (by decide)).1,
   ((beat_payload_ceiling pyServerResolve 0 "x" ["echo", "hi"] [] (by decide)).2
      (by decide)).1⟩

/-- C8 fails as stated: this heartbeat cycle — head frame `"head"` with
eleven trailing payload frames — produces zero response frames, because
the frame-ceiling `RuntimeError` aborts the cycle before `_respond` runs. -/
theorem beat_ceiling_cycle_no_response :
    sentFrames (beat pyServerResolve 0 "head"
      ["1", "2", "3", "4", "5", "6", "7", "8", "9", "10", "11"]).1 = [] ∧
    (beat pyServerResolve 0 "head"
      ["1", "2", "3", "4", "5", "6", "7", "8", "9", "10", "11"]).2 =
      .error (.runtimeError "Count = 11 > 10! breaking") := by
  constructor <;> decide

/-- C8 (amended): every heartbeat cycle that completes without a fatal
error produces exactly one response frame, and it is sent only after the
whole of the cycle's receiving and processing: the cycle's trace is its
received frames followed by the single sent response, nothing else. -/
theorem beat_single_response (resolve : String → Option (String → Except String String))
    (c : Nat) (head : String) (trailing : List String)
    (ev : List Event) (r : Bool × Nat)
    (h : beat resolve c head trailing = (ev, .ok r)) :
    ∃ (ins : List String) (resp : String),
      ev = ins.map Event.recv ++ [Event.send resp] := by
  unfold beat at h
  by_cases hstop : startswith head "STOP"
  · rw [if_pos hstop] at h
    have h1 : [Event.recv head, Event.send (respond "STOPPED" none none)] = ev :=
      congrArg Prod.fst h
    exact ⟨[head], respond "STOPPED" none none, by rw [← h1]; rfl⟩
  · rw [if_neg hstop] at h
    cases trailing with
    | nil =>
      have h1 : [Event.recv head, Event.send (respond "beat" none none)] = ev :=
        congrArg Prod.fst h
      exact ⟨[head], respond "beat" none none, by rw [← h1]; rfl⟩
    | cons a l =>
      dsimp only at h
      rcases hcl : (collectLoop (a :: l) 0).2 with e | packet
      · rw [hcl] at h
        simp at h
      · rw [hcl] at h
        have h1 : Event.recv head :: ((collectLoop (a :: l) 0).1.map Event.recv ++
            [Event.send (respond "beat" (dispatch resolve packet).1
              (dispatch resolve packet).2)]) = ev :=
          congrArg Prod.fst h
        refine ⟨head :: (collectLoop (a :: l) 0).1,
          respond "beat" (dispatch resolve packet).1 (dispatch resolve packet).2, ?_⟩
        rw [← h1]
        simp

/-- Concrete instance of the amended C8: a bare heartbeat cycle's trace is
one received frame followed by its single response. -/
theorem beat_single_response_witness :
    ∃ (ins : List String) (resp : String),
      ([Event.recv "x", Event.send "beat"] : List Event) =
        ins.map Event.recv ++ [Event.send resp] :=
  beat_single_response pyServerResolve 0 "x" []
    [Event.recv "x", Event.send "beat"] (false, 0 + 1) (by decide)

/-- C9: under `run` the beat counter starts at zero and the value recorded
after each processed cycle — the terminating stop cycle included — is the
cycle's index plus one: it increases by exactly one per cycle and is never
reset or decreased while the loop runs. -/
theorem run_counter (resolve : String → Option (String → Except String String))
    (i : Rat) (msgs : List (String × List String))
    (counts : List Nat) (st : Bool)
    (h : (run resolve i msgs).2 = .ok (counts, st)) :
    ∀ k (hk : k < counts.length), counts.get ⟨k, hk⟩ = k + 1 := by
  unfold run at h
  by_cases hc : i > BEAT_BOUNDS_HI ∨ i < BEAT_BOUNDS_LO
  · rw [if_pos hc] at h
    simp at h
  · rw [if_neg hc] at h
    intro k hk
    have hk1 := runLoop_counts resolve msgs 0 counts st h k hk
    simpa using hk1

/-- Concrete instance of C9: a normal cycle then a stop cycle record the
counter values 1 and 2; the stop cycle's value, at index 1, is 2. -/
theorem run_counter_witness :
    List.get ([1, 2] : List Nat) ⟨1, by norm_num⟩ = 1 + 1 := by
  have he : run pyServerResolve 1 [("a", []), ("STOP", [])] =
      runLoop pyServerResolve [("a", []), ("STOP", [])] 0 := by
    unfold run
    rw [if_neg (by norm_num [BEAT_BOUNDS_LO, BEAT_BOUNDS_HI])]
  have h : (run pyServerResolve 1 [("a", []), ("STOP", [])]).2 =
      .ok ([1, 2], true) := by
    rw [he]
    decide
  exact run_counter pyServerResolve 1 [("a", []), ("STOP", [])] [1, 2] true h 1
    (by norm_num)

end PyServer
